import Mathlib

/-!
Verification of the partition-level batch data-quality pipeline of
`lib/batch_process_data_quality.py` (transit-trip cleaning:
`viajes_enriquecidos` → `viajes_limpios`).

The Python code manipulates polars DataFrames.  We shallowly embed the
fragment of polars the pipeline uses:

* a trip record is a wide flat row of nullable numeric fields (`Option ℚ`),
  two distance fields that arrive as raw values that may fail to parse as
  floats (`RawVal`), and two nullable stop identifiers (`Option String`);
* a DataFrame is a list of rows together with its list of column names
  (`Frame`); `with_columns` adds a column name when absent and rewrites the
  per-row slot; `filter` keeps rows whose predicate is `true` (polars drops
  rows where a comparison against null yields null, which the Boolean
  predicates below reproduce); `drop` removes column names and clears the
  corresponding slots;
* `cast(Float64, strict=False)` maps an unparseable raw value to null
  instead of raising (`castFloat`).

Counts are carried as `Int` (Python integers) and the retention percentage
as `ℚ` (Python float arithmetic is exact on the integral values involved;
we model the division exactly).
-/

/-- A raw value of the columns `distancia_ruta` / `distancia_eucl` before the
non-strict cast to Float64: null, a numeric value, or an unparseable value
(e.g. the string "abc"). -/
inductive RawVal where
  | null : RawVal
  | num : ℚ → RawVal
  | invalid : RawVal
deriving DecidableEq, Repr

/-- `pl.col(c).cast(pl.Float64, strict=False)`: null and unparseable values
become null, numeric values survive. -/
def castFloat : RawVal → Option ℚ
  | RawVal.null => none
  | RawVal.num q => some q
  | RawVal.invalid => none

/-- One trip record as read from an input partition: the fields of the input
schema that the filter pipeline touches. -/
structure Record where
  tv1 : Option ℚ
  tv2 : Option ℚ
  tv3 : Option ℚ
  tv4 : Option ℚ
  tc1 : Option ℚ
  tc2 : Option ℚ
  tc3 : Option ℚ
  te0 : Option ℚ
  te1 : Option ℚ
  te2 : Option ℚ
  te3 : Option ℚ
  dveh_euc1 : Option ℚ
  dveh_euc2 : Option ℚ
  dveh_euc3 : Option ℚ
  dveh_euc4 : Option ℚ
  dveh_eucfinal : Option ℚ
  distancia_ruta : RawVal
  distancia_eucl : RawVal
  paradero_inicio_viaje : Option String
  paradero_fin_viaje : Option String
deriving DecidableEq, Repr

/-- A row of a DataFrame inside `aplicar_filtros`: the input fields plus the
slots of the columns the pipeline may add (`none` while the column does not
exist). -/
structure Row where
  tv1 : Option ℚ
  tv2 : Option ℚ
  tv3 : Option ℚ
  tv4 : Option ℚ
  tc1 : Option ℚ
  tc2 : Option ℚ
  tc3 : Option ℚ
  te0 : Option ℚ
  te1 : Option ℚ
  te2 : Option ℚ
  te3 : Option ℚ
  dveh_euc1 : Option ℚ
  dveh_euc2 : Option ℚ
  dveh_euc3 : Option ℚ
  dveh_euc4 : Option ℚ
  dveh_eucfinal : Option ℚ
  distancia_ruta : RawVal
  distancia_eucl : RawVal
  paradero_inicio_viaje : Option String
  paradero_fin_viaje : Option String
  t_vehiculo_total_seg : Option ℚ
  t_total_calculado_seg : Option ℚ
  d_vehiculo_eucl_total_m : Option ℚ
  distancia_ruta_float : Option ℚ
  distancia_eucl_float : Option ℚ
deriving DecidableEq, Repr

/-- A polars DataFrame: its column names and its rows. -/
structure Frame where
  cols : List String
  rows : List Row
deriving DecidableEq, Repr

/-- The row obtained from an input record (derived-column slots empty). -/
def mkRow (r : Record) : Row :=
  { tv1 := r.tv1, tv2 := r.tv2, tv3 := r.tv3, tv4 := r.tv4
    tc1 := r.tc1, tc2 := r.tc2, tc3 := r.tc3
    te0 := r.te0, te1 := r.te1, te2 := r.te2, te3 := r.te3
    dveh_euc1 := r.dveh_euc1, dveh_euc2 := r.dveh_euc2
    dveh_euc3 := r.dveh_euc3, dveh_euc4 := r.dveh_euc4
    dveh_eucfinal := r.dveh_eucfinal
    distancia_ruta := r.distancia_ruta, distancia_eucl := r.distancia_eucl
    paradero_inicio_viaje := r.paradero_inicio_viaje
    paradero_fin_viaje := r.paradero_fin_viaje
    t_vehiculo_total_seg := none
    t_total_calculado_seg := none
    d_vehiculo_eucl_total_m := none
    distancia_ruta_float := none
    distancia_eucl_float := none }

/-- The columns of an input partition (the fields of `Record`). -/
def baseCols : List String :=
  ["tv1", "tv2", "tv3", "tv4", "tc1", "tc2", "tc3",
   "te0", "te1", "te2", "te3",
   "dveh_euc1", "dveh_euc2", "dveh_euc3", "dveh_euc4", "dveh_eucfinal",
   "distancia_ruta", "distancia_eucl",
   "paradero_inicio_viaje", "paradero_fin_viaje"]

/-- The DataFrame read from an input partition holding the records `rs`. -/
def mkFrame (rs : List Record) : Frame :=
  { cols := baseCols, rows := rs.map mkRow }

/-- `with_columns(expr.alias(c))` on the schema: the column name is appended
when it does not yet exist. -/
def addCol (cols : List String) (c : String) : List String :=
  if cols.contains c then cols else cols ++ [c]

/-- `pl.col(c).fill_null(0)` on one slot. -/
def fillNull (o : Option ℚ) : ℚ := o.getD 0

/-- `pl.col(c) > 0` used as a filter predicate: a null slot compares to null
and the row is dropped, so the predicate is true exactly on positive
non-null slots. -/
def optPos (o : Option ℚ) : Bool :=
  match o with
  | none => false
  | some v => decide (0 < v)

/-- The three expressions of the first `with_columns` block (lines 74-86)
applied to one row: the null-safe sums of the time and euclidean-distance
legs. -/
def filaConDerivadas (r : Row) : Row :=
  { r with
    t_vehiculo_total_seg := some
      (fillNull r.tv1 + fillNull r.tv2 + fillNull r.tv3 + fillNull r.tv4)
    t_total_calculado_seg := some
      (fillNull r.te0 + fillNull r.tv1 + fillNull r.tc1 +
       fillNull r.te1 + fillNull r.tv2 + fillNull r.tc2 +
       fillNull r.te2 + fillNull r.tv3 + fillNull r.tc3 +
       fillNull r.te3 + fillNull r.tv4)
    d_vehiculo_eucl_total_m := some
      (fillNull r.dveh_euc1 + fillNull r.dveh_euc2 +
       fillNull r.dveh_euc3 + fillNull r.dveh_euc4) }

/-- The first `with_columns` block of `aplicar_filtros` (lines 74-86): add
`t_vehiculo_total_seg`, `t_total_calculado_seg` and `d_vehiculo_eucl_total_m`
as null-safe sums of the corresponding input fields. -/
def conDerivadas (df : Frame) : Frame :=
  { cols := addCol (addCol (addCol df.cols "t_vehiculo_total_seg")
      "t_total_calculado_seg") "d_vehiculo_eucl_total_m"
    rows := df.rows.map filaConDerivadas }

/-- The stage-A predicate (lines 90-91). -/
def predTiempos (r : Row) : Bool :=
  optPos r.t_vehiculo_total_seg && optPos r.t_total_calculado_seg

/-- Stage A (lines 89-92): keep rows whose two derived time sums are
strictly positive. -/
def filtroTiempos (df : Frame) : Frame :=
  { cols := df.cols, rows := df.rows.filter predTiempos }

/-- The stage-B predicate (lines 98-99). -/
def predParaderos (r : Row) : Bool :=
  r.paradero_inicio_viaje.isSome && r.paradero_fin_viaje.isSome

/-- Stage B (lines 97-100): keep rows whose two stop identifiers are
non-null. -/
def filtroParaderos (df : Frame) : Frame :=
  { cols := df.cols, rows := df.rows.filter predParaderos }

/-- The imputation expression (lines 107-110) on one row:
`when(is_null).then(col d_vehiculo_eucl_total_m).otherwise(col
dveh_eucfinal)`. -/
def filaImputarDveh (r : Row) : Row :=
  { r with
    dveh_eucfinal :=
      match r.dveh_eucfinal with
      | none => r.d_vehiculo_eucl_total_m
      | some v => some v }

/-- Stage C imputation (lines 106-111): when `dveh_eucfinal` is null it is
replaced by the value of the `d_vehiculo_eucl_total_m` column. -/
def imputarDveh (df : Frame) : Frame :=
  { cols := addCol df.cols "dveh_eucfinal"
    rows := df.rows.map filaImputarDveh }

/-- The cast expressions (lines 115-116) on one row. -/
def filaCastDistancias (r : Row) : Row :=
  { r with
    distancia_ruta_float := castFloat r.distancia_ruta
    distancia_eucl_float := castFloat r.distancia_eucl }

/-- Stage C cast (lines 114-117): the two distance columns are cast to
Float64 non-strictly into two fresh columns. -/
def castDistancias (df : Frame) : Frame :=
  { cols := addCol (addCol df.cols "distancia_ruta_float")
      "distancia_eucl_float"
    rows := df.rows.map filaCastDistancias }

/-- The stage-C predicate (lines 121-126). -/
def predDistancias (r : Row) : Bool :=
  r.distancia_ruta_float.isSome && optPos r.distancia_ruta_float &&
  (r.distancia_eucl_float.isSome && optPos r.distancia_eucl_float) &&
  (r.dveh_eucfinal.isSome && optPos r.dveh_eucfinal)

/-- Stage C filter (lines 120-127): keep rows whose parsed route distance,
parsed euclidean distance and (imputed) `dveh_eucfinal` are non-null and
strictly positive. -/
def filtroDistancias (df : Frame) : Frame :=
  { cols := df.cols, rows := df.rows.filter predDistancias }

/-- One column drop: clears the slot of a temporary column. -/
def clearTemp (r : Row) (c : String) : Row :=
  if c = "distancia_ruta_float" then { r with distancia_ruta_float := none }
  else if c = "distancia_eucl_float" then { r with distancia_eucl_float := none }
  else r

/-- Lines 129-135: drop the temporary parsed-float columns that are present
(`columnas_temporales` intersected with the frame, then `df.drop`). -/
def dropTemporales (df : Frame) : Frame :=
  let columnasTemporales := ["distancia_ruta_float", "distancia_eucl_float"]
  let columnasAEliminar := columnasTemporales.filter fun c => df.cols.contains c
  if columnasAEliminar.isEmpty then df
  else
    { cols := df.cols.filter fun c => !(columnasAEliminar.contains c)
      rows := df.rows.map fun r => columnasAEliminar.foldl clearTemp r }

/-- The statistics dictionary returned by `aplicar_filtros`. -/
structure Stats where
  n_inicial : Int
  n_filtrados_tiempo : Int
  n_filtrados_paraderos : Int
  n_filtrados_dist : Int
  n_final : Int
  pct_retenido : ℚ
deriving DecidableEq, Repr

/-- `aplicar_filtros` (lines 63-149): the partition-level quality filter.
Mirrors the Python statement by statement; counts are `len(df)` at the
same program points. -/
def aplicar_filtros (df : Frame) : Frame × Stats :=
  let n_inicial : Int := df.rows.length
  let df1 := conDerivadas df
  let df2 := filtroTiempos df1
  let n_despues_tiempo : Int := df2.rows.length
  let n_filtrados_tiempo := n_inicial - n_despues_tiempo
  let df3 := filtroParaderos df2
  let n_despues_paraderos : Int := df3.rows.length
  let n_filtrados_paraderos := n_despues_tiempo - n_despues_paraderos
  let df4 := imputarDveh df3
  let df5 := castDistancias df4
  let df6 := filtroDistancias df5
  let df7 := dropTemporales df6
  let n_final : Int := df7.rows.length
  let n_filtrados_dist := n_despues_paraderos - n_final
  let stats : Stats :=
    { n_inicial := n_inicial
      n_filtrados_tiempo := n_filtrados_tiempo
      n_filtrados_paraderos := n_filtrados_paraderos
      n_filtrados_dist := n_filtrados_dist
      n_final := n_final
      pct_retenido :=
        if 0 < n_inicial then (n_final : ℚ) / (n_inicial : ℚ) * 100 else 0 }
  (df7, stats)

/-!
## Partition worker (`procesar_particion`, lines 156-267)

The worker performs I/O against GCS.  We embed the storage backend as an
environment of fallible operations (`Except String` mirrors a Python
exception carrying its message) and make the worker return, besides its
result, the trace of backend calls and of the explicit releases
(`del`/`gc.collect`) it performed — so that "returns skipped without
reading input" and "releases held structures" are statable.

`Except.error` as the worker's overall result means an exception
propagated out of `procesar_particion` (uncaught).  The read step
(`open_input_file` + `pq.read_table` + `pl.from_arrow`) is one atomic
environment operation; the pure `aplicar_filtros` call cannot raise.
-/

/-- A partition descriptor, as discovered by the orchestrator. -/
structure Particion where
  year : Int
  week : Int
  path : String
deriving DecidableEq, Repr

/-- An observable backend/memory event of the worker. -/
inductive Ev where
  | auth : Ev
  | existsCheck : String → Ev
  | openInput : String → Ev
  | mkdirs : String → Ev
  | writeFile : String → Ev
  | release : String → Ev
deriving DecidableEq, Repr

/-- The storage backend as seen by one worker. -/
structure Env where
  adc : Except String Unit
  existsQ : String → Except String Bool
  readTable : String → Except String (List Record)
  makedirs : String → Except String Unit
  writeFile : String → Frame → Except String Unit

/-- `OUTPUT_PATH` (line 35). -/
def OUTPUT_PATH : String := "tesis-vonetto-datalake/lake/silver/viajes_limpios"

/-- `output_partition` (line 179). -/
def outputPartition (particion : Particion) : String :=
  OUTPUT_PATH ++ "/iso_year=" ++ toString particion.year ++
    "/iso_week=" ++ toString particion.week

/-- `output_file` (line 180). -/
def outputFileOf (particion : Particion) : String :=
  outputPartition particion ++ "/data-0.parquet"

/-- Models `traceback.format_exc()` (line 260): a diagnostic trace derived
from the exception. -/
def tracebackOf (e : String) : String :=
  "Traceback (most recent call last): " ++ e

/-- The worker's result dict: `status` is success / skipped / error. -/
inductive WResult where
  | success : Int → Int → Stats → WResult
  | skipped : Int → Int → WResult
  | err : Int → Int → String → WResult
deriving DecidableEq, Repr

/-- `procesar_particion` (lines 156-267), statement by statement.
The first try block (lines 166-176) catches authentication failures and
returns an error result whose message has no traceback.  The idempotency
check `gfs.exists(output_file)` (line 182) is outside every try block, so
its exception propagates (`Except.error`).  The second try block
(lines 193-267) catches read/write failures, releases the held structures
and returns an error result with `str(e)` plus the traceback. -/
def procesar_particion (env : Env) (particion : Particion)
    (force_reprocess : Bool) : Except String WResult × List Ev :=
  let year := particion.year
  let week := particion.week
  let input_file := particion.path
  match env.adc with
  | Except.error e =>
      (Except.ok (WResult.err year week ("Error de autenticación GCS: " ++ e)),
       [Ev.auth])
  | Except.ok _ =>
    let output_file := outputFileOf particion
    match env.existsQ output_file with
    | Except.error e =>
        (Except.error e, [Ev.auth, Ev.existsCheck output_file])
    | Except.ok b =>
      if b && !force_reprocess then
        (Except.ok (WResult.skipped year week),
         [Ev.auth, Ev.existsCheck output_file])
      else
        match env.readTable input_file with
        | Except.error e =>
            (Except.ok (WResult.err year week (e ++ "\n" ++ tracebackOf e)),
             [Ev.auth, Ev.existsCheck output_file, Ev.openInput input_file])
        | Except.ok records =>
          let resultado := aplicar_filtros (mkFrame records)
          let evsBase := [Ev.auth, Ev.existsCheck output_file,
                          Ev.openInput input_file,
                          Ev.release "tabla", Ev.release "df"]
          match env.makedirs (outputPartition particion) with
          | Except.error e =>
              (Except.ok (WResult.err year week (e ++ "\n" ++ tracebackOf e)),
               evsBase ++ [Ev.mkdirs (outputPartition particion),
                           Ev.release "df_filtrado"])
          | Except.ok _ =>
            match env.writeFile output_file resultado.1 with
            | Except.error e =>
                (Except.ok (WResult.err year week (e ++ "\n" ++ tracebackOf e)),
                 evsBase ++ [Ev.mkdirs (outputPartition particion),
                             Ev.writeFile output_file,
                             Ev.release "df_filtrado"])
            | Except.ok _ =>
                (Except.ok (WResult.success year week resultado.2),
                 evsBase ++ [Ev.mkdirs (outputPartition particion),
                             Ev.writeFile output_file,
                             Ev.release "df_filtrado"])

/-!
## Batch orchestrator (`main`, lines 274-459), from dispatch onwards

`future.result()` either hands the worker's result dict back or raises a
pool-level critical error (e.g. `BrokenProcessPool`); the orchestrator
catches the latter (lines 385-392) and counts it as a failed partition.
An outcome is therefore `Except String WResult`.  The aggregation loop is
written twice in the source (verbose with prints, lines 363-392, and
non-verbose with tqdm, lines 394-421) with identical aggregation logic;
`procesarResultado` is that shared logic.
-/

/-- What collecting one future yields at the orchestrator. -/
abbrev Outcome := Except String WResult

/-- `stats_globales` (lines 338-347). -/
structure StatsGlobales where
  n_inicial : Int
  n_filtrados_tiempo : Int
  n_filtrados_paraderos : Int
  n_filtrados_dist : Int
  n_final : Int
  particiones_procesadas : Int
  particiones_skipped : Int
  particiones_fallidas : Int
deriving DecidableEq, Repr

/-- The zero-initialised `stats_globales` dict (lines 338-347). -/
def statsGlobalesIniciales : StatsGlobales :=
  { n_inicial := 0, n_filtrados_tiempo := 0, n_filtrados_paraderos := 0
    n_filtrados_dist := 0, n_final := 0, particiones_procesadas := 0
    particiones_skipped := 0, particiones_fallidas := 0 }

/-- One iteration of the result-collection loop (lines 363-392): success
adds the partition stats into the batch totals, skipped and error (and a
pool-level critical exception) only bump their own counters. -/
def procesarResultado (sg : StatsGlobales) (resultado : Outcome) :
    StatsGlobales :=
  match resultado with
  | Except.ok (WResult.success _ _ stats) =>
      { sg with
        particiones_procesadas := sg.particiones_procesadas + 1
        n_inicial := sg.n_inicial + stats.n_inicial
        n_filtrados_tiempo := sg.n_filtrados_tiempo + stats.n_filtrados_tiempo
        n_filtrados_paraderos :=
          sg.n_filtrados_paraderos + stats.n_filtrados_paraderos
        n_filtrados_dist := sg.n_filtrados_dist + stats.n_filtrados_dist
        n_final := sg.n_final + stats.n_final }
  | Except.ok (WResult.skipped _ _) =>
      { sg with particiones_skipped := sg.particiones_skipped + 1 }
  | Except.ok (WResult.err _ _ _) =>
      { sg with particiones_fallidas := sg.particiones_fallidas + 1 }
  | Except.error _ =>
      { sg with particiones_fallidas := sg.particiones_fallidas + 1 }

/-- The batch totals after collecting all outcomes. -/
def statsGlobalesDe (outcomes : List Outcome) : StatsGlobales :=
  outcomes.foldl procesarResultado statsGlobalesIniciales

/-- Lines 453-459: `return 0 if stats_globales['particiones_fallidas'] == 0
else 1`. -/
def mainExitStatus (outcomes : List Outcome) : Int :=
  if (statsGlobalesDe outcomes).particiones_fallidas = 0 then 0 else 1

/-- An outcome that counts as a failed partition: an error result or a
pool-level critical exception. -/
def esFallo : Outcome → Bool
  | Except.ok (WResult.err _ _ _) => true
  | Except.error _ => true
  | _ => false

/-- The stats carried by a success outcome, if any. -/
def statsDeExito : Outcome → Option Stats
  | Except.ok (WResult.success _ _ stats) => some stats
  | _ => none

/-!
## Record-level reformulation of the filter pipeline

The spec describes the pipeline per record.  The following functions state,
for one input record, the derived sums, the imputed distance and the three
stage predicates; the lemmas below prove that the DataFrame pipeline
computes exactly these.
-/

/-- Null-safe sum of the vehicle-leg times `tv1..tv4`. -/
def sumaVehiculo (r : Record) : ℚ :=
  fillNull r.tv1 + fillNull r.tv2 + fillNull r.tv3 + fillNull r.tv4

/-- Null-safe sum of all leg, transfer and wait times
`te0..te3`, `tv1..tv4`, `tc1..tc3`. -/
def sumaTotal (r : Record) : ℚ :=
  fillNull r.te0 + fillNull r.tv1 + fillNull r.tc1 +
  fillNull r.te1 + fillNull r.tv2 + fillNull r.tc2 +
  fillNull r.te2 + fillNull r.tv3 + fillNull r.tc3 +
  fillNull r.te3 + fillNull r.tv4

/-- Null-safe sum of the per-leg euclidean distances `dveh_euc1..4`. -/
def sumaEuclVehiculo (r : Record) : ℚ :=
  fillNull r.dveh_euc1 + fillNull r.dveh_euc2 +
  fillNull r.dveh_euc3 + fillNull r.dveh_euc4

/-- The value of `dveh_eucfinal` after stage-C imputation: the original
value when present, otherwise the euclidean leg sum. -/
def dvehImputado (r : Record) : ℚ :=
  match r.dveh_eucfinal with
  | none => sumaEuclVehiculo r
  | some v => v

/-- Stage-A condition on one input record: both derived time sums strictly
positive. -/
def pasaTiempos (r : Record) : Bool :=
  decide (0 < sumaVehiculo r) && decide (0 < sumaTotal r)

/-- Stage-B condition on one input record: both stop identifiers
non-null. -/
def pasaParaderos (r : Record) : Bool :=
  r.paradero_inicio_viaje.isSome && r.paradero_fin_viaje.isSome

/-- Stage-C condition on one input record: both distances parse to positive
floats and the (imputed) `dveh_eucfinal` is positive. -/
def pasaDistancias (r : Record) : Bool :=
  (castFloat r.distancia_ruta).isSome && optPos (castFloat r.distancia_ruta) &&
  ((castFloat r.distancia_eucl).isSome && optPos (castFloat r.distancia_eucl)) &&
  decide (0 < dvehImputado r)

/-- The row produced by the stage-1 `with_columns` for an input record. -/
def filaEtapa1 (r : Record) : Row :=
  { mkRow r with
    t_vehiculo_total_seg := some (sumaVehiculo r)
    t_total_calculado_seg := some (sumaTotal r)
    d_vehiculo_eucl_total_m := some (sumaEuclVehiculo r) }

/-- The row an input record contributes to the returned DataFrame (derived
time/distance columns kept, `dveh_eucfinal` imputed, temporary float
columns dropped). -/
def filaFinal (r : Record) : Row :=
  { filaEtapa1 r with dveh_eucfinal := some (dvehImputado r) }

/-- Commuting a map past a filter. -/
lemma filter_of_map {α β : Type} (f : α → β) (p : β → Bool) (l : List α) :
    (l.map f).filter p = (l.filter fun a => p (f a)).map f :=
  List.filter_map f l

/-- Fusing two filters. -/
lemma filter_filter_and {α : Type} (p q : α → Bool) (l : List α) :
    (l.filter p).filter q = l.filter fun a => p a && q a := by
  induction l with
  | nil => rfl
  | cons a l ih =>
      cases hp : p a <;> cases hq : q a <;>
        simp [List.filter_cons, hp, hq, ih]

/-- The rows surviving stage A are the stage-1 rows of the records passing
the record-level time condition. -/
lemma rows_etapa1 (rs : List Record) :
    (filtroTiempos (conDerivadas (mkFrame rs))).rows
      = (rs.filter pasaTiempos).map filaEtapa1 := by
  show ((rs.map mkRow).map filaConDerivadas).filter predTiempos = _
  rw [List.map_map, filter_of_map]
  rfl

/-- The rows surviving stages A and B. -/
lemma rows_etapa2 (rs : List Record) :
    (filtroParaderos (filtroTiempos (conDerivadas (mkFrame rs)))).rows
      = (rs.filter fun r => pasaTiempos r && pasaParaderos r).map filaEtapa1 := by
  show ((filtroTiempos (conDerivadas (mkFrame rs))).rows).filter predParaderos = _
  rw [rows_etapa1, filter_of_map, filter_filter_and]
  rfl

/-- The imputation expression evaluated on a stage-1 row yields the
record-level imputed value. -/
lemma filaImputar_filaEtapa1 (r : Record) :
    filaImputarDveh (filaEtapa1 r) = filaFinal r := by
  cases h : r.dveh_eucfinal <;>
    simp [filaImputarDveh, filaFinal, filaEtapa1, mkRow, dvehImputado, h]

/-- The rows after stage-C imputation. -/
lemma rows_imputado (rs : List Record) :
    (imputarDveh (filtroParaderos (filtroTiempos (conDerivadas
        (mkFrame rs))))).rows
      = (rs.filter fun r => pasaTiempos r && pasaParaderos r).map filaFinal := by
  show ((filtroParaderos (filtroTiempos (conDerivadas
      (mkFrame rs)))).rows).map filaImputarDveh = _
  rw [rows_etapa2, List.map_map]
  congr 1
  funext r
  exact filaImputar_filaEtapa1 r

/-- The columns after stage C's cast: the input schema, the three derived
columns and the two temporary float columns. -/
lemma cols_antes_drop (rs : List Record) :
    (filtroDistancias (castDistancias (imputarDveh (filtroParaderos
        (filtroTiempos (conDerivadas (mkFrame rs))))))).cols
      = baseCols ++
        ["t_vehiculo_total_seg", "t_total_calculado_seg",
         "d_vehiculo_eucl_total_m",
         "distancia_ruta_float", "distancia_eucl_float"] := by
  rfl

/-- `dropTemporales` on a frame carrying both temporary columns: both are
removed from the schema and cleared in every row. -/
lemma dropTemporales_spec (df : Frame)
    (h : df.cols
      = baseCols ++
        ["t_vehiculo_total_seg", "t_total_calculado_seg",
         "d_vehiculo_eucl_total_m",
         "distancia_ruta_float", "distancia_eucl_float"]) :
    dropTemporales df =
      { cols := baseCols ++
          ["t_vehiculo_total_seg", "t_total_calculado_seg",
           "d_vehiculo_eucl_total_m"]
        rows := df.rows.map fun r =>
          { r with distancia_ruta_float := none
                   distancia_eucl_float := none } } := by
  have hc : (["distancia_ruta_float", "distancia_eucl_float"].filter
      fun c => df.cols.contains c)
        = ["distancia_ruta_float", "distancia_eucl_float"] := by
    rw [h]; rfl
  have hcols : df.cols.filter
      (fun c => !((["distancia_ruta_float", "distancia_eucl_float"]
          : List String).contains c))
        = baseCols ++
          ["t_vehiculo_total_seg", "t_total_calculado_seg",
           "d_vehiculo_eucl_total_m"] := by
    rw [h]; rfl
  unfold dropTemporales
  simp only [hc, List.isEmpty_cons, Bool.false_eq_true, if_false]
  refine congrArg₂ Frame.mk hcols ?_
  refine congrArg (fun f => List.map f df.rows) ?_
  funext r
  rfl

/-- The rows of the DataFrame returned by `aplicar_filtros`: exactly the
records passing the three record-level stage conditions, as final rows. -/
lemma rows_final (rs : List Record) :
    (aplicar_filtros (mkFrame rs)).1.rows
      = (rs.filter fun r =>
          pasaTiempos r && pasaParaderos r && pasaDistancias r).map
            filaFinal := by
  have h6 : (filtroDistancias (castDistancias (imputarDveh (filtroParaderos
      (filtroTiempos (conDerivadas (mkFrame rs))))))).rows
        = (rs.filter fun r =>
            pasaTiempos r && pasaParaderos r && pasaDistancias r).map
              (fun r => filaCastDistancias (filaFinal r)) := by
    show (((imputarDveh (filtroParaderos (filtroTiempos (conDerivadas
        (mkFrame rs))))).rows).map filaCastDistancias).filter
          predDistancias = _
    rw [rows_imputado, List.map_map, filter_of_map, filter_filter_and]
    rfl
  show (dropTemporales (filtroDistancias (castDistancias (imputarDveh
      (filtroParaderos (filtroTiempos (conDerivadas
        (mkFrame rs)))))))).rows = _
  rw [dropTemporales_spec _ (cols_antes_drop rs)]
  simp only [h6, List.map_map]
  congr 1

/-- The statistics returned by `aplicar_filtros`, expressed through the
record-level stage conditions. -/
lemma stats_aplicar (rs : List Record) :
    (aplicar_filtros (mkFrame rs)).2 =
      { n_inicial := (rs.length : Int)
        n_filtrados_tiempo :=
          (rs.length : Int) - ((rs.filter pasaTiempos).length : Int)
        n_filtrados_paraderos :=
          ((rs.filter pasaTiempos).length : Int) -
            ((rs.filter fun r => pasaTiempos r && pasaParaderos r).length : Int)
        n_filtrados_dist :=
          ((rs.filter fun r => pasaTiempos r && pasaParaderos r).length : Int) -
            ((rs.filter fun r =>
                pasaTiempos r && pasaParaderos r && pasaDistancias r).length
              : Int)
        n_final :=
          ((rs.filter fun r =>
              pasaTiempos r && pasaParaderos r && pasaDistancias r).length
            : Int)
        pct_retenido :=
          if 0 < (rs.length : Int) then
            ((rs.filter fun r =>
                pasaTiempos r && pasaParaderos r && pasaDistancias r).length
              : ℚ) / (rs.length : ℚ) * 100
          else 0 } := by
  have h0 : (mkFrame rs).rows.length = rs.length := List.length_map rs mkRow
  have h1 : (filtroTiempos (conDerivadas (mkFrame rs))).rows.length
      = (rs.filter pasaTiempos).length := by
    rw [rows_etapa1, List.length_map]
  have h2 : (filtroParaderos (filtroTiempos (conDerivadas
      (mkFrame rs)))).rows.length
        = (rs.filter fun r => pasaTiempos r && pasaParaderos r).length := by
    rw [rows_etapa2, List.length_map]
  have h3 : (aplicar_filtros (mkFrame rs)).1.rows.length
      = (rs.filter fun r =>
          pasaTiempos r && pasaParaderos r && pasaDistancias r).length := by
    rw [rows_final, List.length_map]
  show ({ n_inicial := ((mkFrame rs).rows.length : Int)
          n_filtrados_tiempo := ((mkFrame rs).rows.length : Int) -
            ((filtroTiempos (conDerivadas (mkFrame rs))).rows.length : Int)
          n_filtrados_paraderos :=
            ((filtroTiempos (conDerivadas (mkFrame rs))).rows.length : Int) -
              ((filtroParaderos (filtroTiempos (conDerivadas
                  (mkFrame rs)))).rows.length : Int)
          n_filtrados_dist :=
            ((filtroParaderos (filtroTiempos (conDerivadas
                (mkFrame rs)))).rows.length : Int) -
              ((aplicar_filtros (mkFrame rs)).1.rows.length : Int)
          n_final := ((aplicar_filtros (mkFrame rs)).1.rows.length : Int)
          pct_retenido :=
            if 0 < ((mkFrame rs).rows.length : Int) then
              ((aplicar_filtros (mkFrame rs)).1.rows.length : ℚ) /
                ((mkFrame rs).rows.length : ℚ) * 100
            else 0 } : Stats) = _
  rw [h0, h1, h2, h3]

/-- Claim C1: stage 1 computes `t_vehiculo_total_seg` as the null-safe sum
of `tv1..tv4` and `t_total_calculado_seg` as the null-safe sum of
`te0..te3`, `tv1..tv4`, `tc1..tc3` (null components treated as 0), and
keeps exactly the records where both sums are strictly positive; a record
whose vehicle-time fields are all null or zero is dropped. -/
theorem claim_C1 (rs : List Record) :
    ((filtroTiempos (conDerivadas (mkFrame rs))).rows
        = (rs.filter pasaTiempos).map filaEtapa1)
    ∧ (∀ r : Record,
        (filaEtapa1 r).t_vehiculo_total_seg = some (sumaVehiculo r)
        ∧ (filaEtapa1 r).t_total_calculado_seg = some (sumaTotal r))
    ∧ (∀ r : Record,
        pasaTiempos r = true ↔ (0 < sumaVehiculo r ∧ 0 < sumaTotal r))
    ∧ (∀ r ∈ rs, fillNull r.tv1 = 0 → fillNull r.tv2 = 0 →
        fillNull r.tv3 = 0 → fillNull r.tv4 = 0 →
        filaEtapa1 r ∉ (filtroTiempos (conDerivadas (mkFrame rs))).rows) := by
  refine ⟨rows_etapa1 rs, fun r => ⟨rfl, rfl⟩, fun r => ?_,
    fun r _ h1 h2 h3 h4 hmem => ?_⟩
  · simp [pasaTiempos]
  · rw [rows_etapa1] at hmem
    rcases List.mem_map.mp hmem with ⟨r0, hr0, heq⟩
    have hp := (List.mem_filter.mp hr0).2
    have hsum : sumaVehiculo r0 = sumaVehiculo r := by
      have h := congrArg Row.t_vehiculo_total_seg heq
      simpa [filaEtapa1] using h
    have hz : sumaVehiculo r = 0 := by
      simp [sumaVehiculo, h1, h2, h3, h4]
    simp [pasaTiempos, hsum, hz] at hp

/-- A record with every field null: all vehicle-time components are
null/zero. -/
def rNulo : Record :=
  { tv1 := none, tv2 := none, tv3 := none, tv4 := none
    tc1 := none, tc2 := none, tc3 := none
    te0 := none, te1 := none, te2 := none, te3 := none
    dveh_euc1 := none, dveh_euc2 := none
    dveh_euc3 := none, dveh_euc4 := none
    dveh_eucfinal := none
    distancia_ruta := RawVal.null, distancia_eucl := RawVal.null
    paradero_inicio_viaje := none, paradero_fin_viaje := none }

/-- Witness for C1: the all-null record is dropped by stage 1. -/
theorem claim_C1_witness :
    filaEtapa1 rNulo ∉ (filtroTiempos (conDerivadas (mkFrame [rNulo]))).rows :=
  (claim_C1 [rNulo]).2.2.2 rNulo (List.mem_singleton.mpr rfl) rfl rfl rfl rfl

/-- Claim C3: the statistics satisfy
`n_final ≤ n_despues_paraderos ≤ n_despues_tiempo ≤ n_inicial` (with
`n_despues_tiempo = n_inicial - n_filtrados_tiempo` and
`n_despues_paraderos = n_despues_tiempo - n_filtrados_paraderos`) and each
filter-stage delta is non-negative. -/
theorem claim_C3 (rs : List Record) :
    (aplicar_filtros (mkFrame rs)).2.n_final
        ≤ (aplicar_filtros (mkFrame rs)).2.n_inicial
          - (aplicar_filtros (mkFrame rs)).2.n_filtrados_tiempo
          - (aplicar_filtros (mkFrame rs)).2.n_filtrados_paraderos
    ∧ (aplicar_filtros (mkFrame rs)).2.n_inicial
          - (aplicar_filtros (mkFrame rs)).2.n_filtrados_tiempo
          - (aplicar_filtros (mkFrame rs)).2.n_filtrados_paraderos
        ≤ (aplicar_filtros (mkFrame rs)).2.n_inicial
          - (aplicar_filtros (mkFrame rs)).2.n_filtrados_tiempo
    ∧ (aplicar_filtros (mkFrame rs)).2.n_inicial
          - (aplicar_filtros (mkFrame rs)).2.n_filtrados_tiempo
        ≤ (aplicar_filtros (mkFrame rs)).2.n_inicial
    ∧ 0 ≤ (aplicar_filtros (mkFrame rs)).2.n_filtrados_tiempo
    ∧ 0 ≤ (aplicar_filtros (mkFrame rs)).2.n_filtrados_paraderos
    ∧ 0 ≤ (aplicar_filtros (mkFrame rs)).2.n_filtrados_dist := by
  have hba : (rs.filter pasaTiempos).length ≤ rs.length :=
    List.length_filter_le _ _
  have hcb : (rs.filter fun r => pasaTiempos r && pasaParaderos r).length
      ≤ (rs.filter pasaTiempos).length := by
    rw [← filter_filter_and]
    exact List.length_filter_le _ _
  have hdc : (rs.filter fun r =>
      pasaTiempos r && pasaParaderos r && pasaDistancias r).length
        ≤ (rs.filter fun r => pasaTiempos r && pasaParaderos r).length := by
    rw [← filter_filter_and]
    exact List.length_filter_le _ _
  rw [stats_aplicar]
  dsimp only
  omega

/-- Claim C10 (implicit): the statistics partition the input exactly, and
`n_final` is the number of records in the returned DataFrame. -/
theorem claim_C10 (rs : List Record) :
    (aplicar_filtros (mkFrame rs)).2.n_inicial
        = (aplicar_filtros (mkFrame rs)).2.n_filtrados_tiempo
          + (aplicar_filtros (mkFrame rs)).2.n_filtrados_paraderos
          + (aplicar_filtros (mkFrame rs)).2.n_filtrados_dist
          + (aplicar_filtros (mkFrame rs)).2.n_final
    ∧ (aplicar_filtros (mkFrame rs)).2.n_final
        = ((aplicar_filtros (mkFrame rs)).1.rows.length : Int) := by
  constructor
  · rw [stats_aplicar]
    dsimp only
    omega
  · rw [stats_aplicar, rows_final, List.length_map]

/-- Claim C4: `pct_retenido` lies in [0, 100] on a non-empty input and is
exactly 0 on an empty input, which also yields zero output records (and,
the model being total, no division-by-zero error). -/
theorem claim_C4 (rs : List Record) :
    (rs ≠ [] →
      0 ≤ (aplicar_filtros (mkFrame rs)).2.pct_retenido
      ∧ (aplicar_filtros (mkFrame rs)).2.pct_retenido ≤ 100)
    ∧ (rs = [] →
      (aplicar_filtros (mkFrame rs)).2.pct_retenido = 0
      ∧ (aplicar_filtros (mkFrame rs)).1.rows = []) := by
  constructor
  · intro hne
    have hpos : 0 < (rs.length : Int) := by
      have h := List.length_pos.mpr hne
      exact_mod_cast h
    have hd : (rs.filter fun r =>
        pasaTiempos r && pasaParaderos r && pasaDistancias r).length
          ≤ rs.length := List.length_filter_le _ _
    rw [stats_aplicar]
    dsimp only
    rw [if_pos hpos]
    constructor
    · apply mul_nonneg
      · apply div_nonneg <;> positivity
      · norm_num
    · have h1 : ((rs.filter fun r =>
          pasaTiempos r && pasaParaderos r && pasaDistancias r).length : ℚ)
            / (rs.length : ℚ) ≤ 1 := by
        rw [div_le_one (by exact_mod_cast hpos)]
        exact_mod_cast hd
      linarith
  · intro he
    subst he
    exact ⟨rfl, rfl⟩

/-- Witness for C4: a one-record input gives a percentage inside [0, 100],
and the empty input gives percentage 0 and no output rows. -/
theorem claim_C4_witness :
    (0 ≤ (aplicar_filtros (mkFrame [rNulo])).2.pct_retenido
      ∧ (aplicar_filtros (mkFrame [rNulo])).2.pct_retenido ≤ 100)
    ∧ ((aplicar_filtros (mkFrame ([] : List Record))).2.pct_retenido = 0
      ∧ (aplicar_filtros (mkFrame ([] : List Record))).1.rows = []) :=
  ⟨(claim_C4 [rNulo]).1 (by simp), (claim_C4 []).2 rfl⟩

/-- Claim C2: stage 3 imputes a null `dveh_eucfinal` from the euclidean
leg sum (null legs as 0), parses the two distance fields non-strictly
(failure yields null, never an error) and keeps exactly the survivors of
stages 1-2 whose parsed route distance, parsed euclidean distance and
(possibly imputed) `dveh_eucfinal` are all non-null and strictly positive;
no record with an unparseable `distancia_ruta` reaches the output. -/
theorem claim_C2 (rs : List Record) :
    ((aplicar_filtros (mkFrame rs)).1.rows
        = (rs.filter fun r =>
            pasaTiempos r && pasaParaderos r && pasaDistancias r).map
              filaFinal)
    ∧ (∀ r : Record, r.dveh_eucfinal = none →
        (filaFinal r).dveh_eucfinal = some (sumaEuclVehiculo r))
    ∧ castFloat RawVal.invalid = none
    ∧ (∀ r : Record, pasaDistancias r = true ↔
        ((∃ a, castFloat r.distancia_ruta = some a ∧ 0 < a)
          ∧ (∃ b, castFloat r.distancia_eucl = some b ∧ 0 < b)
          ∧ 0 < dvehImputado r))
    ∧ (∀ row ∈ (aplicar_filtros (mkFrame rs)).1.rows,
        row.distancia_ruta ≠ RawVal.invalid) := by
  refine ⟨rows_final rs, fun r h => ?_, rfl, fun r => ?_,
    fun row hmem => ?_⟩
  · simp [filaFinal, dvehImputado, h]
  · cases hra : castFloat r.distancia_ruta <;>
      cases hre : castFloat r.distancia_eucl <;>
        simp [pasaDistancias, optPos, hra, hre, and_assoc]
  · rw [rows_final] at hmem
    rcases List.mem_map.mp hmem with ⟨r0, hr0, heq⟩
    have hp := (List.mem_filter.mp hr0).2
    simp only [Bool.and_eq_true, pasaDistancias] at hp
    have hsome : (castFloat r0.distancia_ruta).isSome = true := hp.2.1.1.1
    have hruta : row.distancia_ruta = r0.distancia_ruta := by
      rw [← heq]
      rfl
    rw [hruta]
    intro hbad
    rw [hbad] at hsome
    simp [castFloat] at hsome

/-- The spec's stage-3 example record: `dveh_eucfinal` null, per-leg
euclidean distances summing to 120. -/
def rEjemplo : Record :=
  { rNulo with
    dveh_euc1 := some 50, dveh_euc2 := some 40
    dveh_euc3 := some 30, dveh_euc4 := none
    dveh_eucfinal := none }

/-- Witness for C2: the example record's imputed `dveh_eucfinal` is 120. -/
theorem claim_C2_witness :
    (filaFinal rEjemplo).dveh_eucfinal = some 120 := by
  have h := (claim_C2 []).2.1 rEjemplo rfl
  rw [h]
  norm_num [sumaEuclVehiculo, rEjemplo, rNulo, fillNull]

/-- Counterexample to claim C5 as stated: the derived column
`t_vehiculo_total_seg` IS a column of the returned DataFrame (only the two
temporary parsed-float columns are dropped, lines 129-135), so the output
schema differs from the input schema. -/
theorem claim_C5_counterexample :
    "t_vehiculo_total_seg" ∈ (aplicar_filtros (mkFrame [])).1.cols
    ∧ (aplicar_filtros (mkFrame ([] : List Record))).1.cols
        ≠ (mkFrame ([] : List Record)).cols := by
  constructor
  · decide
  · decide

/-- Claim C5 as amended: the returned DataFrame contains neither of the
two temporary parsed-float columns, but its schema is the input schema
extended with the three derived columns `t_vehiculo_total_seg`,
`t_total_calculado_seg`, `d_vehiculo_eucl_total_m`, which are kept. -/
theorem claim_C5_amended (rs : List Record) :
    ((aplicar_filtros (mkFrame rs)).1.cols
        = baseCols ++
          ["t_vehiculo_total_seg", "t_total_calculado_seg",
           "d_vehiculo_eucl_total_m"])
    ∧ "distancia_ruta_float" ∉ (aplicar_filtros (mkFrame rs)).1.cols
    ∧ "distancia_eucl_float" ∉ (aplicar_filtros (mkFrame rs)).1.cols
    ∧ (∀ row ∈ (aplicar_filtros (mkFrame rs)).1.rows,
        row.distancia_ruta_float = none ∧ row.distancia_eucl_float = none) := by
  have hcols : (aplicar_filtros (mkFrame rs)).1.cols
      = baseCols ++
        ["t_vehiculo_total_seg", "t_total_calculado_seg",
         "d_vehiculo_eucl_total_m"] := by
    show (dropTemporales (filtroDistancias (castDistancias (imputarDveh
        (filtroParaderos (filtroTiempos (conDerivadas
          (mkFrame rs)))))))).cols = _
    rw [dropTemporales_spec _ (cols_antes_drop rs)]
  refine ⟨hcols, ?_, ?_, fun row hmem => ?_⟩
  · rw [hcols]; decide
  · rw [hcols]; decide
  · rw [rows_final] at hmem
    rcases List.mem_map.mp hmem with ⟨r0, -, heq⟩
    rw [← heq]
    exact ⟨rfl, rfl⟩

/-- Witness for the amended C5, at the empty input. -/
theorem claim_C5_witness :
    (aplicar_filtros (mkFrame ([] : List Record))).1.cols
      = baseCols ++
        ["t_vehiculo_total_seg", "t_total_calculado_seg",
         "d_vehiculo_eucl_total_m"] :=
  (claim_C5_amended []).1

/-- Claim C6: when the output artifact already exists and reprocessing is
not forced, a worker (whose credential acquisition succeeds) returns
`skipped` immediately and never opens or reads the input file. -/
theorem claim_C6 (env : Env) (particion : Particion)
    (hadc : env.adc = Except.ok ())
    (hex : env.existsQ (outputFileOf particion) = Except.ok true) :
    (procesar_particion env particion false).1
        = Except.ok (WResult.skipped particion.year particion.week)
    ∧ ∀ p, Ev.openInput p ∉ (procesar_particion env particion false).2 := by
  constructor
  · simp [procesar_particion, hadc, hex]
  · intro p
    simp [procesar_particion, hadc, hex]

/-- An environment in which every backend call succeeds and the output
artifact already exists. -/
def envC6 : Env :=
  { adc := Except.ok ()
    existsQ := fun _ => Except.ok true
    readTable := fun _ => Except.error "no usado"
    makedirs := fun _ => Except.ok ()
    writeFile := fun _ _ => Except.ok () }

/-- A concrete partition descriptor. -/
def partEjemplo : Particion :=
  { year := 2023, week := 5, path := "ruta-entrada.parquet" }

/-- Witness for C6: with the output already present, the worker returns
skipped. -/
theorem claim_C6_witness :
    (procesar_particion envC6 partEjemplo false).1
      = Except.ok (WResult.skipped 2023 5) :=
  (claim_C6 envC6 partEjemplo rfl rfl).1

/-- An environment whose existence probe raises. -/
def envExistsFalla : Env :=
  { adc := Except.ok ()
    existsQ := fun _ => Except.error "fallo de red"
    readTable := fun _ => Except.error "no usado"
    makedirs := fun _ => Except.ok ()
    writeFile := fun _ _ => Except.ok () }

/-- Counterexample to claim C7 as stated: an exception raised by the
idempotency existence check (`gfs.exists`, line 182) is outside both try
blocks of `procesar_particion`, so the worker propagates it instead of
returning an `error` result — the claim "the worker catches every
exception during steps 1-6 and never propagates" is false for step 3. -/
theorem claim_C7_counterexample :
    (procesar_particion envExistsFalla partEjemplo false).1
      = Except.error "fallo de red" := rfl

/-- Claim C7 as amended: an exception during credential acquisition is
caught and returned as an `error` result (message without a trace); once
past the idempotency check, an exception during read or write is caught
and returned as an `error` result whose message carries the diagnostic
trace, with the held structures released; the only exception the worker
propagates is one raised by the idempotency existence check itself. -/
theorem claim_C7_amended (env : Env) (particion : Particion)
    (force_reprocess : Bool) :
    (∀ e, env.adc = Except.error e →
      (procesar_particion env particion force_reprocess).1
        = Except.ok (WResult.err particion.year particion.week
            ("Error de autenticación GCS: " ++ e)))
    ∧ (∀ e, (procesar_particion env particion force_reprocess).1
          = Except.error e →
        env.existsQ (outputFileOf particion) = Except.error e)
    ∧ (∀ e b, env.adc = Except.ok () →
        env.existsQ (outputFileOf particion) = Except.ok b →
        (b = false ∨ force_reprocess = true) →
        env.readTable particion.path = Except.error e →
        (procesar_particion env particion force_reprocess).1
          = Except.ok (WResult.err particion.year particion.week
              (e ++ "\n" ++ tracebackOf e)))
    ∧ (∀ e b rcds, env.adc = Except.ok () →
        env.existsQ (outputFileOf particion) = Except.ok b →
        (b = false ∨ force_reprocess = true) →
        env.readTable particion.path = Except.ok rcds →
        env.makedirs (outputPartition particion) = Except.ok () →
        env.writeFile (outputFileOf particion)
            (aplicar_filtros (mkFrame rcds)).1 = Except.error e →
        (procesar_particion env particion force_reprocess).1
          = Except.ok (WResult.err particion.year particion.week
              (e ++ "\n" ++ tracebackOf e))
        ∧ Ev.release "df_filtrado"
            ∈ (procesar_particion env particion force_reprocess).2) := by
  refine ⟨?_, ?_, ?_, ?_⟩
  · intro e he
    simp [procesar_particion, he]
  · intro e hres
    cases hadc : env.adc with
    | error e0 => simp [procesar_particion, hadc] at hres
    | ok u =>
      cases u
      cases hex : env.existsQ (outputFileOf particion) with
      | error e1 =>
          simp [procesar_particion, hadc, hex] at hres
          subst hres
          rfl
      | ok b =>
          by_cases hb : (b && !force_reprocess) = true
          · simp [procesar_particion, hadc, hex, hb] at hres
          · have hb2 : (b && !force_reprocess) = false :=
              Bool.not_eq_true _ ▸ Bool.eq_false_iff.mpr hb
            cases hrd : env.readTable particion.path with
            | error e2 =>
                simp [procesar_particion, hadc, hex, hb2, hrd] at hres
            | ok rcds =>
              cases hmk : env.makedirs (outputPartition particion) with
              | error e3 =>
                  simp [procesar_particion, hadc, hex, hb2, hrd, hmk] at hres
              | ok u2 =>
                cases u2
                cases hwr : env.writeFile (outputFileOf particion)
                    (aplicar_filtros (mkFrame rcds)).1 with
                | error e4 =>
                    simp [procesar_particion, hadc, hex, hb2, hrd, hmk, hwr]
                      at hres
                | ok u3 =>
                    cases u3
                    simp [procesar_particion, hadc, hex, hb2, hrd, hmk, hwr]
                      at hres
  · intro e b hadc hex hbf hrd
    have hcond : (b && !force_reprocess) = false := by
      rcases hbf with h | h <;> subst h <;> simp
    simp [procesar_particion, hadc, hex, hcond, hrd]
  · intro e b rcds hadc hex hbf hrd hmk hwr
    have hcond : (b && !force_reprocess) = false := by
      rcases hbf with h | h <;> subst h <;> simp
    constructor
    · simp [procesar_particion, hadc, hex, hcond, hrd, hmk, hwr]
    · simp [procesar_particion, hadc, hex, hcond, hrd, hmk, hwr]

/-- An environment whose read fails (after a negative existence probe). -/
def envLecturaFalla : Env :=
  { adc := Except.ok ()
    existsQ := fun _ => Except.ok false
    readTable := fun _ => Except.error "fallo de lectura"
    makedirs := fun _ => Except.ok ()
    writeFile := fun _ _ => Except.ok () }

/-- Witness for the amended C7: a read failure is caught and reported as
an error result carrying the trace. -/
theorem claim_C7_witness :
    (procesar_particion envLecturaFalla partEjemplo false).1
      = Except.ok (WResult.err 2023 5
          ("fallo de lectura" ++ "\n" ++ tracebackOf "fallo de lectura")) :=
  (claim_C7_amended envLecturaFalla partEjemplo false).2.2.1
    "fallo de lectura" false rfl rfl (Or.inl rfl) rfl

/-- An outcome that counts as a processed (success) partition. -/
def esExito : Outcome → Bool
  | Except.ok (WResult.success _ _ _) => true
  | _ => false

/-- An outcome that counts as a skipped partition. -/
def esSkipped : Outcome → Bool
  | Except.ok (WResult.skipped _ _) => true
  | _ => false

/-- The whole aggregation fold, field by field: numeric totals accumulate
only the stats of success outcomes; the three partition counters count
successes, skips and failures. -/
lemma agg_foldl (outcomes : List Outcome) : ∀ sg : StatsGlobales,
    outcomes.foldl procesarResultado sg =
      { n_inicial := sg.n_inicial +
          ((outcomes.filterMap statsDeExito).map Stats.n_inicial).sum
        n_filtrados_tiempo := sg.n_filtrados_tiempo +
          ((outcomes.filterMap statsDeExito).map Stats.n_filtrados_tiempo).sum
        n_filtrados_paraderos := sg.n_filtrados_paraderos +
          ((outcomes.filterMap statsDeExito).map
            Stats.n_filtrados_paraderos).sum
        n_filtrados_dist := sg.n_filtrados_dist +
          ((outcomes.filterMap statsDeExito).map Stats.n_filtrados_dist).sum
        n_final := sg.n_final +
          ((outcomes.filterMap statsDeExito).map Stats.n_final).sum
        particiones_procesadas := sg.particiones_procesadas +
          (outcomes.countP esExito : Int)
        particiones_skipped := sg.particiones_skipped +
          (outcomes.countP esSkipped : Int)
        particiones_fallidas := sg.particiones_fallidas +
          (outcomes.countP esFallo : Int) } := by
  induction outcomes with
  | nil => intro sg; simp
  | cons o os ih =>
      intro sg
      rw [List.foldl_cons, ih]
      cases o with
      | error e =>
          simp only [procesarResultado, statsDeExito, esExito, esSkipped,
            esFallo, List.countP_cons, List.filterMap_cons]
          simp
          omega
      | ok r =>
        cases r with
        | success y w st =>
            simp only [procesarResultado, statsDeExito, esExito, esSkipped,
              esFallo, List.countP_cons, List.filterMap_cons]
            simp
            simp [add_assoc, add_comm, add_left_comm]
        | skipped y w =>
            simp only [procesarResultado, statsDeExito, esExito, esSkipped,
              esFallo, List.countP_cons, List.filterMap_cons]
            simp
            omega
        | err y w m =>
            simp only [procesarResultado, statsDeExito, esExito, esSkipped,
              esFallo, List.countP_cons, List.filterMap_cons]
            simp
            omega

/-- Claim C9: the orchestrator's batch totals are the componentwise sums
of the stats of exactly the success outcomes, while skipped and error
outcomes only increment their own partition counters. -/
theorem claim_C9 (outcomes : List Outcome) :
    (statsGlobalesDe outcomes).n_inicial
        = ((outcomes.filterMap statsDeExito).map Stats.n_inicial).sum
    ∧ (statsGlobalesDe outcomes).n_filtrados_tiempo
        = ((outcomes.filterMap statsDeExito).map Stats.n_filtrados_tiempo).sum
    ∧ (statsGlobalesDe outcomes).n_filtrados_paraderos
        = ((outcomes.filterMap statsDeExito).map
            Stats.n_filtrados_paraderos).sum
    ∧ (statsGlobalesDe outcomes).n_filtrados_dist
        = ((outcomes.filterMap statsDeExito).map Stats.n_filtrados_dist).sum
    ∧ (statsGlobalesDe outcomes).n_final
        = ((outcomes.filterMap statsDeExito).map Stats.n_final).sum
    ∧ (statsGlobalesDe outcomes).particiones_procesadas
        = (outcomes.countP esExito : Int)
    ∧ (statsGlobalesDe outcomes).particiones_skipped
        = (outcomes.countP esSkipped : Int)
    ∧ (statsGlobalesDe outcomes).particiones_fallidas
        = (outcomes.countP esFallo : Int) := by
  rw [statsGlobalesDe, agg_foldl]
  simp [statsGlobalesIniciales]

/-- Claim C8: once dispatch is reached, the exit status is 1 exactly when
some outcome is an error result or a pool-level critical error, and 0
exactly when none is; skipped outcomes never cause failure. -/
theorem claim_C8 (outcomes : List Outcome) :
    (mainExitStatus outcomes = 1 ↔ ∃ o ∈ outcomes, esFallo o = true)
    ∧ (mainExitStatus outcomes = 0 ↔ ∀ o ∈ outcomes, esFallo o = false) := by
  have hf : (statsGlobalesDe outcomes).particiones_fallidas
      = (outcomes.countP esFallo : Int) := by
    rw [statsGlobalesDe, agg_foldl]
    simp [statsGlobalesIniciales]
  constructor
  · constructor
    · intro h
      by_contra hno
      push_neg at hno
      have hz : outcomes.countP esFallo = 0 :=
        List.countP_eq_zero.mpr (by
          intro o ho
          simp [hno o ho])
      rw [mainExitStatus, hf, hz] at h
      simp at h
    · rintro ⟨o, ho, hfo⟩
      have hpos : 0 < outcomes.countP esFallo :=
        List.countP_pos_iff.mpr ⟨o, ho, hfo⟩
      rw [mainExitStatus, hf]
      rw [if_neg]
      intro hc
      omega
  · constructor
    · intro h
      intro o ho
      by_contra hb
      have hfo : esFallo o = true := by
        revert hb
        cases esFallo o <;> simp
      have hpos : 0 < outcomes.countP esFallo :=
        List.countP_pos_iff.mpr ⟨o, ho, hfo⟩
      rw [mainExitStatus, hf, if_neg (by intro hc; omega)] at h
      exact one_ne_zero h
    · intro h
      have hz : outcomes.countP esFallo = 0 :=
        List.countP_eq_zero.mpr (by
          intro o ho
          simp [h o ho])
      rw [mainExitStatus, hf, hz]
      simp

/-- Witness for C8: a single pool-level critical error gives exit status 1.
-/
theorem claim_C8_witness :
    mainExitStatus [Except.error "fallo critico"] = 1 :=
  (claim_C8 [Except.error "fallo critico"]).1.mpr
    ⟨Except.error "fallo critico", List.mem_singleton.mpr rfl, rfl⟩
